import Mathlib

/-!
Shallow embedding of the browser-side VoIP call session state machine
(`src/client/components/voip/VoIPUser.ts`) of the Rocket.Chat repository.

The `VoIPUser` class drives a SIP user agent through registration,
call offer/accept/reject, media negotiation and teardown.  We embed its
mutable instance fields as a Lean structure, each public method and
transport delegate callback as a state-passing function, and thrown
exceptions as an `error` component of the result.  Events emitted through
the inherited emitter and commands issued to the SIP transport are
collected in lists.  Lists of actions model sequences of transitions.
-/

/-- The `CallStates` union type of `definitions/CallStates`:
the call state of the session. -/
inductive CallStates
  | IDLE
  | SERVER_CONNECTED
  | REGISTERED
  | UNREGISTERED
  | OFFER_RECEIVED
  | ANSWER_SENT
  | IN_CALL
  deriving DecidableEq, Repr

/-- The `Operation` enum of `Operations.ts`: which asynchronous signaling
operation is outstanding. -/
inductive Operation
  | OP_NONE
  | OP_CONNECT
  | OP_REGISTER
  | OP_UNREGISTER
  | OP_PROCESS_INVITE
  deriving DecidableEq, Repr

/-- The `UserState` enum of `definitions/UserState`. -/
inductive UserState
  | IDLE
  | UAC
  | UAS
  deriving DecidableEq, Repr

/-- Embedding of `ICallerInfo` of `definitions/ICallerInfo`: caller metadata taken from
an inbound invitation's remote identity. -/
structure ICallerInfo where
  callerId : String
  callerName : String
  host : String
  deriving DecidableEq, Repr

/-- The sip.js `SessionState` enum: sub-state of a transport session. -/
inductive SessionState
  | Initial
  | Establishing
  | Established
  | Terminating
  | Terminated
  deriving DecidableEq, Repr

/-- Model of the sip.js session description handler attached to a session.
`isWebSDH` records whether the object passes the
`instanceof SessionDescriptionHandler` (web platform) check;
`remoteMediaStream` is the negotiated remote stream handle (by id). -/
structure SessionDescriptionHandlerModel where
  isWebSDH : Bool
  remoteMediaStream : Option Nat
  deriving DecidableEq, Repr

/-- Model of a sip.js `Session` object reference.  `id` stands for the
object's reference identity (distinct objects have distinct ids), used to
embed the `this.session !== session` reference comparison.
`isInvitation` records whether the object passes `instanceof Invitation`.
The `remoteIdentity*` fields carry the caller identity of an invitation. -/
structure SessionModel where
  id : Nat
  isInvitation : Bool
  state : SessionState
  sessionDescriptionHandler : Option SessionDescriptionHandlerModel
  remoteIdentityUser : Option String
  remoteIdentityDisplayName : String
  remoteIdentityHost : String
  deriving DecidableEq, Repr

/-- Model of the `Stream` wrapper around the remote media stream.
`cleared` records that `clear()` has detached the tracks. -/
structure StreamModel where
  mediaStream : Nat
  cleared : Bool
  deriving DecidableEq, Repr

/-- Model of `IMediaStreamRenderer`: the configured rendering target.
`remoteMediaElement` is the media element (by id) used for playback. -/
structure IMediaStreamRenderer where
  id : Nat
  remoteMediaElement : Option Nat
  deriving DecidableEq, Repr

/-- The events of `definitions/VoipEvents` emitted to the UI layer. -/
inductive VoipEvent
  | connected
  | connectionerror (error : String)
  | registered
  | unregistered
  | registrationerror (error : String)
  | unregistrationerror (error : String)
  | incomingcall (info : ICallerInfo)
  | callestablished
  | callterminated
  | stateChanged
  deriving DecidableEq, Repr

/-- Commands issued to the SIP transport:
`Registerer.register`, `Registerer.unregister({all: true})`,
`Invitation.accept`, `Invitation.reject`, `Session.bye`. -/
inductive Command
  | register
  | unregisterAll
  | accept
  | reject
  | bye
  deriving DecidableEq, Repr

/-- The mutable instance fields of the `VoIPUser` class.
Fields named `_x` embed the private fields of the class; `isReady` embeds
`state.isReady`; `userAgent` and `registerer` record whether the
corresponding sip.js objects exist; `enableVideo` embeds
`config.enableVideo`. -/
structure VoIPUser where
  isReady : Bool
  enableVideo : Bool
  session : Option SessionModel
  remoteStream : Option StreamModel
  userAgent : Bool
  registerer : Bool
  mediaStreamRendered : Option IMediaStreamRenderer
  _callState : CallStates
  _callerInfo : Option ICallerInfo
  _userState : UserState
  _opInProgress : Operation
  deriving DecidableEq, Repr

/-- Result of running one method or callback: the updated instance state,
the events emitted (in order), the transport commands issued (in order),
and the thrown error message, if any.  Mutations performed before a throw
persist in `user`, as they do in the TypeScript class. -/
structure StepResult where
  user : VoIPUser
  events : List VoipEvent
  commands : List Command
  error : Option String
  deriving DecidableEq, Repr

/-- Embedding of `emit`: the inherited emitter delivers events synchronously; the
constructor installs listeners that set `state.isReady` on `connected`
and clear it on `connectionerror`.  Other events do not touch the state. -/
def VoIPUser.emit (u : VoIPUser) (e : VoipEvent) : VoIPUser :=
  match e with
  | .connected => { u with isReady := true }
  | .connectionerror _ => { u with isReady := false }
  | _ => u

/-- The state of a fresh `VoIPUser` instance right after the constructor:
all object references absent, `_callState = 'IDLE'`,
`_opInProgress = OP_NONE`, `_userState = IDLE`, `state.isReady = false`. -/
def VoIPUser.initial (enableVideo : Bool)
    (mediaRenderer : Option IMediaStreamRenderer) : VoIPUser :=
  { isReady := false
    enableVideo := enableVideo
    session := none
    remoteStream := none
    userAgent := false
    registerer := false
    mediaStreamRendered := mediaRenderer
    _callState := .IDLE
    _callerInfo := none
    _userState := .IDLE
    _opInProgress := .OP_NONE }

/-- Embedding of `init()`: constructs the sip.js `UserAgent`, sets
`_opInProgress = OP_CONNECT` and starts the agent. -/
def VoIPUser.init (u : VoIPUser) : StepResult :=
  ⟨{ u with userAgent := true, _opInProgress := .OP_CONNECT }, [], [], none⟩

/-- Embedding of `onConnect` (UserAgent delegate installed in `init`): sets
`_callState = 'SERVER_CONNECTED'`, emits `connected` (which flips
`isReady` to true via the constructor listener), and creates the
`Registerer` when the user agent exists. -/
def VoIPUser.onConnect (u : VoIPUser) : StepResult :=
  let u := { u with _callState := CallStates.SERVER_CONNECTED }
  let u := u.emit .connected
  let u := if u.userAgent then { u with registerer := true } else u
  ⟨u, [.connected], [], none⟩

/-- Embedding of `onDisconnect` (UserAgent delegate installed in `init`): emits
`connectionerror` only when the transport supplied an error value. -/
def VoIPUser.onDisconnect (error : Option String) (u : VoIPUser) : StepResult :=
  match error with
  | some e => ⟨u.emit (.connectionerror e), [.connectionerror e], [], none⟩
  | none => ⟨u, [], [], none⟩

/-- Embedding of `onAccept` (OutgoingRequestDelegate): on an accepted register exchange
sets `_callState = 'REGISTERED'` and emits `registered`, `stateChanged`;
on an accepted unregister exchange sets `_callState = 'UNREGISTERED'` and
emits `unregistered`, `stateChanged`.  The two `if` statements are
sequential, as in the source. -/
def VoIPUser.onAccept (u : VoIPUser) : StepResult :=
  let r1 : VoIPUser × List VoipEvent :=
    if u._opInProgress = Operation.OP_REGISTER then
      let u := { u with _callState := CallStates.REGISTERED }
      let u := (u.emit .registered).emit .stateChanged
      (u, [.registered, .stateChanged])
    else (u, [])
  let r2 : VoIPUser × List VoipEvent :=
    if r1.1._opInProgress = Operation.OP_UNREGISTER then
      let u := { r1.1 with _callState := CallStates.UNREGISTERED }
      let u := (u.emit .unregistered).emit .stateChanged
      (u, [.unregistered, .stateChanged])
    else (r1.1, [])
  ⟨r2.1, r1.2 ++ r2.2, [], none⟩

/-- Embedding of `onReject` (OutgoingRequestDelegate): emits `registrationerror` or
`unregistrationerror` with the transport-supplied error, depending on the
outstanding operation. -/
def VoIPUser.onReject (error : String) (u : VoIPUser) : StepResult :=
  let es1 : List VoipEvent :=
    if u._opInProgress = Operation.OP_REGISTER then [.registrationerror error] else []
  let es2 : List VoipEvent :=
    if u._opInProgress = Operation.OP_UNREGISTER then [.unregistrationerror error] else []
  ⟨u, es1 ++ es2, [], none⟩

/-- Embedding of `handleIncomingCall(invitation)`: when `callState == 'REGISTERED'`,
records the invitation as the session, sets
`_opInProgress = OP_PROCESS_INVITE`, `_callState = 'OFFER_RECEIVED'`,
`_userState = UAS`, populates `_callerInfo` from the invitation's remote
identity and emits `incomingcall`, `stateChanged`; otherwise rejects the
invitation with no state change. -/
def VoIPUser.handleIncomingCall (invitation : SessionModel)
    (u : VoIPUser) : StepResult :=
  if u._callState = CallStates.REGISTERED then
    let u := { u with
      _opInProgress := Operation.OP_PROCESS_INVITE
      _callState := CallStates.OFFER_RECEIVED
      _userState := UserState.UAS
      session := some invitation }
    let callerInfo : ICallerInfo :=
      { callerId := invitation.remoteIdentityUser.getD ""
        callerName := invitation.remoteIdentityDisplayName
        host := invitation.remoteIdentityHost }
    let u := { u with _callerInfo := some callerInfo }
    let u := (u.emit (.incomingcall callerInfo)).emit .stateChanged
    ⟨u, [.incomingcall callerInfo, .stateChanged], [], none⟩
  else
    ⟨u, [], [Command.reject], none⟩

/-- Embedding of `setupRemoteMedia()`: throws if no session exists; silently returns
`undefined` if the session has no session description handler; throws if
the handler is not the web platform handler; throws
"Remote media stream undefiend." if the handler carries no remote stream;
otherwise wraps the stream in a fresh `Stream` and, when a rendering
element is configured, binds and plays it. -/
def VoIPUser.setupRemoteMedia (u : VoIPUser) : StepResult :=
  match u.session with
  | none => ⟨u, [], [], some "Session does not exist."⟩
  | some s =>
    match s.sessionDescriptionHandler with
    | none => ⟨u, [], [], none⟩
    | some sdh =>
      if !sdh.isWebSDH then
        ⟨u, [], [], some
          "Session description handler not instance of web SessionDescriptionHandler"⟩
      else
        match sdh.remoteMediaStream with
        | none => ⟨u, [], [], some "Remote media stream undefiend."⟩
        | some ms =>
          ⟨{ u with remoteStream := some ⟨ms, false⟩ }, [], [], none⟩

/-- The session state-change listener installed by
`setupSessionEventHandlers(session)`.  `sess` is the session reference
captured by the closure; the listener first compares it against the
currently tracked session (`this.session !== session`) and returns
without effect on mismatch.  On `Established` it clears the operation,
moves to `'IN_CALL'`, attaches remote media and emits `callestablished`,
`stateChanged`; on `Terminating`/`Terminated` it drops the session,
returns to `'REGISTERED'`, resets operation and user state, emits
`callterminated`, clears the remote stream and emits `stateChanged`. -/
def VoIPUser.sessionStateListener (sess : SessionModel) (state : SessionState)
    (u : VoIPUser) : StepResult :=
  if u.session.map SessionModel.id ≠ some sess.id then
    ⟨u, [], [], none⟩
  else
    match state with
    | .Initial => ⟨u, [], [], none⟩
    | .Establishing => ⟨u, [], [], none⟩
    | .Established =>
      let u := { u with
        _opInProgress := Operation.OP_NONE
        _callState := CallStates.IN_CALL }
      let r := u.setupRemoteMedia
      match r.error with
      | some e => ⟨r.user, r.events, r.commands, some e⟩
      | none =>
        let u2 := (r.user.emit .callestablished).emit .stateChanged
        ⟨u2, r.events ++ [.callestablished, .stateChanged], r.commands, none⟩
    | .Terminating | .Terminated =>
      let u := { u with
        session := none
        _callState := CallStates.REGISTERED
        _opInProgress := Operation.OP_NONE
        _userState := UserState.IDLE }
      let u := u.emit .callterminated
      let u := { u with
        remoteStream := u.remoteStream.map
          (fun s : StreamModel => { s with cleared := true }) }
      let u := u.emit .stateChanged
      ⟨u, [.callterminated, .stateChanged], [], none⟩

/-- Embedding of `register()`: sets `_opInProgress = OP_REGISTER` and forwards to the
registerer via optional chaining — no command is issued when the
registerer does not exist. -/
def VoIPUser.register (u : VoIPUser) : StepResult :=
  let u := { u with _opInProgress := Operation.OP_REGISTER }
  if u.registerer then ⟨u, [], [Command.register], none⟩ else ⟨u, [], [], none⟩

/-- Embedding of `unregister()`: sets `_opInProgress = OP_UNREGISTER` and forwards to
the registerer via optional chaining — no command is issued when the
registerer does not exist. -/
def VoIPUser.unregister (u : VoIPUser) : StepResult :=
  let u := { u with _opInProgress := Operation.OP_UNREGISTER }
  if u.registerer then ⟨u, [], [Command.unregisterAll], none⟩ else ⟨u, [], [], none⟩

/-- Embedding of `acceptCall(mediaRenderer?)`: first overwrites `mediaStreamRendered`
when a renderer argument is supplied (before any guard); then, when
`_callState == 'OFFER_RECEIVED'` and
`_opInProgress == OP_PROCESS_INVITE`, sets `_callState = 'ANSWER_SENT'`
and accepts the invitation (throwing if the session is not an
`Invitation`); otherwise throws "Something went wront". -/
def VoIPUser.acceptCall (mediaRenderer : Option IMediaStreamRenderer)
    (u : VoIPUser) : StepResult :=
  let u := match mediaRenderer with
    | some r => { u with mediaStreamRendered := some r }
    | none => u
  if u._callState = CallStates.OFFER_RECEIVED ∧
      u._opInProgress = Operation.OP_PROCESS_INVITE then
    let u := { u with _callState := CallStates.ANSWER_SENT }
    match u.session with
    | some s =>
      if s.isInvitation then ⟨u, [], [Command.accept], none⟩
      else ⟨u, [], [], some "Session not instance of Invitation."⟩
    | none => ⟨u, [], [], some "Session not instance of Invitation."⟩
  else
    ⟨u, [], [], some "Something went wront"⟩

/-- Embedding of `rejectCall()`: throws if no session exists, if
`_callState != 'OFFER_RECEIVED'`, or if the session is not an
`Invitation`; otherwise issues the reject command. -/
def VoIPUser.rejectCall (u : VoIPUser) : StepResult :=
  match u.session with
  | none => ⟨u, [], [], some "Session does not exist."⟩
  | some s =>
    if u._callState ≠ CallStates.OFFER_RECEIVED then
      ⟨u, [], [], some "Incorrect call State"⟩
    else if !s.isInvitation then
      ⟨u, [], [], some "Session not instance of Invitation."⟩
    else
      ⟨u, [], [Command.reject], none⟩

/-- Embedding of `endCall()`: throws if no session exists or
`_callState` is neither `'ANSWER_SENT'` nor `'IN_CALL'`; otherwise
dispatches on the transport session's sub-state: `Initial`/`Establishing`
issue reject (throwing when the session is not an `Invitation`),
`Established` issues bye, `Terminating`/`Terminated` do nothing. -/
def VoIPUser.endCall (u : VoIPUser) : StepResult :=
  match u.session with
  | none => ⟨u, [], [], some "Session does not exist."⟩
  | some s =>
    if u._callState ≠ CallStates.ANSWER_SENT ∧
        u._callState ≠ CallStates.IN_CALL then
      ⟨u, [], [], some "Incorrect call State"⟩
    else
      match s.state with
      | .Initial | .Establishing =>
        if s.isInvitation then ⟨u, [], [Command.reject], none⟩
        else ⟨u, [], [], some "Session not instance of Invitation."⟩
      | .Established => ⟨u, [], [Command.bye], none⟩
      | .Terminating | .Terminated => ⟨u, [], [], none⟩

/-- The `VoIpCallerInfo` union of `definitions/VoIpCallerInfo`, returned
by the `callerInfo` getter: the caller info field is present only in the
`IN_CALL` variant. -/
structure VoIpCallerInfo where
  state : CallStates
  userState : UserState
  callerInfo : Option ICallerInfo
  deriving DecidableEq, Repr

/-- The `callerInfo` getter: when `callState == 'IN_CALL'` it throws if
the stored caller info is missing and otherwise returns the info with the
state; in every other state it returns the state and user state without
caller info, and does not throw. -/
def VoIPUser.callerInfo (u : VoIPUser) : Except String VoIpCallerInfo :=
  if u._callState = CallStates.IN_CALL then
    match u._callerInfo with
    | none => .error "[VoIPUser callerInfo] invalid state"
    | some ci => .ok ⟨CallStates.IN_CALL, u._userState, some ci⟩
  else
    .ok ⟨u._callState, u._userState, none⟩

/-- External stimuli to the state machine: public commands from the UI
layer and callbacks delivered by the transport. -/
inductive VoipAction
  | init
  | onConnect
  | onDisconnect (error : Option String)
  | onAccept
  | onReject (error : String)
  | handleIncomingCall (invitation : SessionModel)
  | sessionStateChange (sess : SessionModel) (state : SessionState)
  | register
  | unregister
  | acceptCall (mediaRenderer : Option IMediaStreamRenderer)
  | rejectCall
  | endCall
  deriving Repr

/-- One step of the machine on an external stimulus. -/
def VoIPUser.step (u : VoIPUser) (a : VoipAction) : StepResult :=
  match a with
  | .init => u.init
  | .onConnect => u.onConnect
  | .onDisconnect e => u.onDisconnect e
  | .onAccept => u.onAccept
  | .onReject e => u.onReject e
  | .handleIncomingCall inv => u.handleIncomingCall inv
  | .sessionStateChange sess st => u.sessionStateListener sess st
  | .register => u.register
  | .unregister => u.unregister
  | .acceptCall r => u.acceptCall r
  | .rejectCall => u.rejectCall
  | .endCall => u.endCall

/-- Run a sequence of stimuli, keeping the final state. -/
def VoIPUser.run (u : VoIPUser) (as : List VoipAction) : VoIPUser :=
  as.foldl (fun u a => (u.step a).user) u

/-- A concrete inbound invitation used in scenario runs: reference id 1,
an `Invitation` with a web session description handler carrying remote
stream 5, from caller `alice@example.com`. -/
def sampleInvitation : SessionModel :=
  { id := 1
    isInvitation := true
    state := .Initial
    sessionDescriptionHandler := some { isWebSDH := true, remoteMediaStream := some 5 }
    remoteIdentityUser := some "alice"
    remoteIdentityDisplayName := "Alice"
    remoteIdentityHost := "example.com" }

/-- A concrete invitation whose transport session carries no session
description handler. -/
def sdhlessSession : SessionModel :=
  { id := 2
    isInvitation := true
    state := .Established
    sessionDescriptionHandler := none
    remoteIdentityUser := none
    remoteIdentityDisplayName := ""
    remoteIdentityHost := "example.com" }

/-- A concrete media stream renderer target. -/
def sampleRenderer : IMediaStreamRenderer :=
  { id := 7, remoteMediaElement := some 3 }

/-- C1 counterexample: after `init`, transport connect, `register()` and
an accepted register exchange, `callState` is `REGISTERED` (a stable
state) but `operationInProgress` is still `OP_REGISTER`, not `OP_NONE` —
refuting the claim that every accepted register exchange resets
`operationInProgress` to `NONE`. -/
theorem onAccept_leaves_op_register_set :
    ((VoIPUser.initial false none).run
      [.init, .onConnect, .register, .onAccept])._callState =
        CallStates.REGISTERED ∧
    ((VoIPUser.initial false none).run
      [.init, .onConnect, .register, .onAccept])._opInProgress =
        Operation.OP_REGISTER ∧
    Operation.OP_REGISTER ≠ Operation.OP_NONE := by decide

/-- C1 (amended): `onAccept` and `onReject` never modify
`operationInProgress` — an accepted register exchange sets
`callState = REGISTERED` but leaves `operationInProgress = OP_REGISTER`
(it is reset to `OP_NONE` only by session established/terminated
transitions); in particular connect followed by a successful register
ends with `callState = REGISTERED` and
`operationInProgress = OP_REGISTER`. -/
theorem opInProgress_unchanged_by_register_ack
    (u : VoIPUser) (e : String) :
    ((u.onAccept).user)._opInProgress = u._opInProgress ∧
    ((u.onReject e).user)._opInProgress = u._opInProgress ∧
    ((VoIPUser.initial false none).run
      [.init, .onConnect, .register, .onAccept])._callState =
        CallStates.REGISTERED ∧
    ((VoIPUser.initial false none).run
      [.init, .onConnect, .register, .onAccept])._opInProgress =
        Operation.OP_REGISTER := by
  refine ⟨?_, ?_, by decide, by decide⟩
  · obtain ⟨a, b, c, d, f, g, m, cs, ci, us, op⟩ := u
    cases op <;> rfl
  · obtain ⟨a, b, c, d, f, g, m, cs, ci, us, op⟩ := u
    cases op <;> rfl

/-- C2 counterexample: run connect, register, an inbound invitation from
`alice@example.com`, accept, establish, then the transport reports
terminated.  `callState` returns to `REGISTERED` — not one of
`OFFER_RECEIVED`, `ANSWER_SENT`, `IN_CALL` — yet the stored caller info
is still defined: the claimed `iff` fails and termination does not make
`callerInfo` undefined. -/
theorem terminated_call_keeps_callerInfo :
    ((VoIPUser.initial false none).run
      [.init, .onConnect, .register, .onAccept,
       .handleIncomingCall sampleInvitation, .acceptCall none,
       .sessionStateChange sampleInvitation .Established,
       .sessionStateChange sampleInvitation .Terminated])._callState =
        CallStates.REGISTERED ∧
    ((VoIPUser.initial false none).run
      [.init, .onConnect, .register, .onAccept,
       .handleIncomingCall sampleInvitation, .acceptCall none,
       .sessionStateChange sampleInvitation .Established,
       .sessionStateChange sampleInvitation .Terminated])._callerInfo ≠
        none := by decide

/-- C2 (amended): the session state-change listener never modifies the
stored caller info — in particular the terminating/terminated transition
returns `callState` to `REGISTERED`, clears the session and resets
operation and user state, but leaves `_callerInfo` populated; in the
terminated scenario the stored info is still the caller
`alice@example.com`. -/
theorem sessionStateListener_preserves_callerInfo
    (u : VoIPUser) (sess : SessionModel) (st : SessionState) :
    ((u.sessionStateListener sess st).user)._callerInfo = u._callerInfo ∧
    ((VoIPUser.initial false none).run
      [.init, .onConnect, .register, .onAccept,
       .handleIncomingCall sampleInvitation, .acceptCall none,
       .sessionStateChange sampleInvitation .Established,
       .sessionStateChange sampleInvitation .Terminated])._callerInfo =
      some { callerId := "alice", callerName := "Alice",
             host := "example.com" } := by
  refine ⟨?_, by decide⟩
  unfold VoIPUser.sessionStateListener
  by_cases h : u.session.map SessionModel.id ≠ some sess.id
  · rw [if_pos h]
  · rw [if_neg h]
    cases st
    · rfl
    · rfl
    · obtain ⟨a, b, c, d, f, g, m, cs, ci, us, op⟩ := u
      cases c with
      | none => rfl
      | some s =>
        obtain ⟨sid, sinv, sst, sdh, ru, rd, rh⟩ := s
        cases sdh with
        | none => rfl
        | some handler =>
          obtain ⟨web, rms⟩ := handler
          cases web
          · rfl
          · cases rms <;> rfl
    · rfl
    · rfl

/-- C3 counterexample: a fresh instance has `callState = IDLE`, not
`IN_CALL`, yet the `callerInfo` getter succeeds, returning the current
state and user state without caller info — reading the accessor outside
an active call does not fail. -/
theorem callerInfo_getter_ok_when_idle :
    (VoIPUser.initial false none)._callState ≠ CallStates.IN_CALL ∧
    (VoIPUser.initial false none).callerInfo =
      Except.ok { state := CallStates.IDLE, userState := UserState.IDLE,
                  callerInfo := none } :=
  ⟨by decide, rfl⟩

/-- C3 (amended): the `callerInfo` getter does not fail outside
`IN_CALL` — it returns the current call state and user state with no
caller info; it throws only when `callState = IN_CALL` while the stored
caller info is missing. -/
theorem callerInfo_getter_total_outside_in_call (u : VoIPUser) :
    (u._callState ≠ CallStates.IN_CALL →
      u.callerInfo =
        Except.ok { state := u._callState, userState := u._userState,
                    callerInfo := none }) ∧
    (u._callState = CallStates.IN_CALL → u._callerInfo = none →
      u.callerInfo =
        Except.error "[VoIPUser callerInfo] invalid state") := by
  constructor
  · intro h
    unfold VoIPUser.callerInfo
    rw [if_neg h]
  · intro h hci
    unfold VoIPUser.callerInfo
    rw [if_pos h, hci]

/-- Witness for the amended C3 theorem, at a fresh instance (state
`IDLE`) and at an instance forced into `IN_CALL` with no stored caller
info. -/
theorem callerInfo_getter_total_outside_in_call_witness :
    (VoIPUser.initial false none).callerInfo =
      Except.ok { state := CallStates.IDLE, userState := UserState.IDLE,
                  callerInfo := none } ∧
    ({ VoIPUser.initial false none with
        _callState := CallStates.IN_CALL } : VoIPUser).callerInfo =
      Except.error "[VoIPUser callerInfo] invalid state" :=
  ⟨(callerInfo_getter_total_outside_in_call
      (VoIPUser.initial false none)).1 (by decide),
   (callerInfo_getter_total_outside_in_call
      { VoIPUser.initial false none with
        _callState := CallStates.IN_CALL }).2 rfl rfl⟩

/-- C4 counterexample: calling `acceptCall` with a media renderer on a
fresh instance (`callState = IDLE ≠ OFFER_RECEIVED`) fails with
"Something went wront", yet the instance state has changed:
`mediaStreamRendered` was overwritten before the guard ran. -/
theorem acceptCall_guard_violation_mutates_renderer :
    (VoIPUser.initial false none)._callState ≠ CallStates.OFFER_RECEIVED ∧
    ((VoIPUser.initial false none).acceptCall (some sampleRenderer)).error =
      some "Something went wront" ∧
    ((VoIPUser.initial false none).acceptCall (some sampleRenderer)).user ≠
      VoIPUser.initial false none := by decide

/-- C4 (amended): `acceptCall` outside `OFFER_RECEIVED` always fails
synchronously with "Something went wront", emits no event, issues no
transport command, and mutates nothing except `mediaStreamRendered`,
which is overwritten (before the guard) when a renderer argument is
supplied. -/
theorem acceptCall_guard_failure (u : VoIPUser)
    (r : Option IMediaStreamRenderer)
    (h : u._callState ≠ CallStates.OFFER_RECEIVED) :
    (u.acceptCall r).error = some "Something went wront" ∧
    (u.acceptCall r).events = [] ∧
    (u.acceptCall r).commands = [] ∧
    (u.acceptCall r).user =
      { u with mediaStreamRendered := r.elim u.mediaStreamRendered some } := by
  obtain ⟨a, b, c, d, f, g, m, cs, ci, us, op⟩ := u
  cases r <;> cases cs <;>
    first
      | exact absurd rfl h
      | exact ⟨rfl, rfl, rfl, rfl⟩

/-- Witness for the amended C4 theorem: on a fresh instance with no
renderer argument the call fails and the state is fully unchanged. -/
theorem acceptCall_guard_failure_witness :
    ((VoIPUser.initial false none).acceptCall none).error =
      some "Something went wront" ∧
    ((VoIPUser.initial false none).acceptCall none).user =
      VoIPUser.initial false none :=
  ⟨(acceptCall_guard_failure (VoIPUser.initial false none) none
      (by decide)).1,
   (acceptCall_guard_failure (VoIPUser.initial false none) none
      (by decide)).2.2.2⟩

/-- C5 (confirmed): an inbound invitation arriving while
`callState = REGISTERED` sets `operationInProgress = OP_PROCESS_INVITE`,
`callState = OFFER_RECEIVED`, `userState = UAS`, records the invitation
as the session, populates the caller info from the invitation's remote
identity and emits `incomingcall` then `stateChanged`; in any other
state the invitation is rejected immediately with no state mutation and
no event. -/
theorem handleIncomingCall_spec (u : VoIPUser) (inv : SessionModel) :
    (u._callState = CallStates.REGISTERED →
      u.handleIncomingCall inv =
        { user := { u with
            _opInProgress := Operation.OP_PROCESS_INVITE
            _callState := CallStates.OFFER_RECEIVED
            _userState := UserState.UAS
            session := some inv
            _callerInfo := some
              { callerId := inv.remoteIdentityUser.getD ""
                callerName := inv.remoteIdentityDisplayName
                host := inv.remoteIdentityHost } }
          events :=
            [.incomingcall
              { callerId := inv.remoteIdentityUser.getD ""
                callerName := inv.remoteIdentityDisplayName
                host := inv.remoteIdentityHost },
             .stateChanged]
          commands := []
          error := none }) ∧
    (u._callState ≠ CallStates.REGISTERED →
      u.handleIncomingCall inv =
        { user := u, events := [], commands := [Command.reject],
          error := none }) := by
  constructor
  · intro h
    unfold VoIPUser.handleIncomingCall
    rw [if_pos h]
    rfl
  · intro h
    unfold VoIPUser.handleIncomingCall
    rw [if_neg h]

/-- Witness for the C5 theorem: a registered instance processing the
invitation from `alice@example.com`, and a fresh (idle) instance
rejecting it untouched. -/
theorem handleIncomingCall_spec_witness :
    ({ VoIPUser.initial false none with
        _callState := CallStates.REGISTERED } : VoIPUser).handleIncomingCall
        sampleInvitation =
      { user := { VoIPUser.initial false none with
          _opInProgress := Operation.OP_PROCESS_INVITE
          _callState := CallStates.OFFER_RECEIVED
          _userState := UserState.UAS
          session := some sampleInvitation
          _callerInfo := some
            { callerId := "alice", callerName := "Alice",
              host := "example.com" } }
        events :=
          [.incomingcall
            { callerId := "alice", callerName := "Alice",
              host := "example.com" },
           .stateChanged]
        commands := []
        error := none } ∧
    (VoIPUser.initial false none).handleIncomingCall sampleInvitation =
      { user := VoIPUser.initial false none, events := [],
        commands := [Command.reject], error := none } :=
  ⟨(handleIncomingCall_spec
      { VoIPUser.initial false none with
        _callState := CallStates.REGISTERED } sampleInvitation).1 rfl,
   (handleIncomingCall_spec
      (VoIPUser.initial false none) sampleInvitation).2 (by decide)⟩

/-- A concrete session whose web session description handler carries no
remote media stream. -/
def streamlessSession : SessionModel :=
  { id := 3
    isInvitation := true
    state := .Established
    sessionDescriptionHandler := some { isWebSDH := true, remoteMediaStream := none }
    remoteIdentityUser := some "bob"
    remoteIdentityDisplayName := "Bob"
    remoteIdentityHost := "example.com" }

/-- C6 (confirmed): `endCall` fails without mutating state when no
session exists or when `callState` is `IDLE`, `SERVER_CONNECTED`,
`REGISTERED` or `UNREGISTERED`; under the precondition (a tracked
invitation session and `callState` in `{ANSWER_SENT, IN_CALL}`) it
mutates nothing and dispatches on the transport session's sub-state:
reject when not yet established, bye when established, and no command
when already terminating or terminated. -/
theorem endCall_spec (u : VoIPUser) (s : SessionModel) :
    (u.session = none →
      u.endCall =
        { user := u, events := [], commands := [],
          error := some "Session does not exist." }) ∧
    ((u._callState = CallStates.IDLE ∨
      u._callState = CallStates.SERVER_CONNECTED ∨
      u._callState = CallStates.REGISTERED ∨
      u._callState = CallStates.UNREGISTERED) →
      (u.endCall).user = u ∧ (u.endCall).events = [] ∧
      (u.endCall).commands = [] ∧ (u.endCall).error ≠ none) ∧
    (u.session = some s → s.isInvitation = true →
      (u._callState = CallStates.ANSWER_SENT ∨
       u._callState = CallStates.IN_CALL) →
      (u.endCall).user = u ∧ (u.endCall).events = [] ∧
      (u.endCall).error = none ∧
      (u.endCall).commands =
        match s.state with
        | .Initial | .Establishing => [Command.reject]
        | .Established => [Command.bye]
        | .Terminating | .Terminated => []) := by
  refine ⟨?_, ?_, ?_⟩
  · intro h
    unfold VoIPUser.endCall
    rw [h]
  · intro h
    rcases h with h | h | h | h <;>
      · unfold VoIPUser.endCall
        rw [h]
        cases hs : u.session with
        | none => exact ⟨rfl, rfl, rfl, by simp⟩
        | some s2 => exact ⟨rfl, rfl, rfl, by simp⟩
  · intro hs hi hcs
    unfold VoIPUser.endCall
    rw [hs]
    rcases hcs with h | h <;>
      · rw [h]
        obtain ⟨sid, sinv, sst, sdhf, ru, rd, rh⟩ := s
        cases hi
        cases sst <;> exact ⟨rfl, rfl, rfl, rfl⟩

/-- Witness for the C6 theorem: a fresh instance (no session) fails; a
registered instance fails; an in-call instance with an established
session issues the bye command. -/
theorem endCall_spec_witness :
    (VoIPUser.initial false none).endCall =
      { user := VoIPUser.initial false none, events := [], commands := [],
        error := some "Session does not exist." } ∧
    ({ VoIPUser.initial false none with
        _callState := CallStates.REGISTERED } : VoIPUser).endCall.error ≠
      none ∧
    ({ VoIPUser.initial false none with
        session := some { sampleInvitation with
          state := SessionState.Established }
        _callState := CallStates.IN_CALL } : VoIPUser).endCall.commands =
      [Command.bye] :=
  ⟨(endCall_spec (VoIPUser.initial false none) sampleInvitation).1 rfl,
   ((endCall_spec
      { VoIPUser.initial false none with
        _callState := CallStates.REGISTERED } sampleInvitation).2.1
      (Or.inr (Or.inr (Or.inl rfl)))).2.2.2,
   ((endCall_spec
      { VoIPUser.initial false none with
        session := some { sampleInvitation with
          state := SessionState.Established }
        _callState := CallStates.IN_CALL }
      { sampleInvitation with state := SessionState.Established }).2.2
      rfl rfl (Or.inr rfl)).2.2.2⟩

/-- C7 (confirmed): a state-change callback whose captured session
reference differs from the currently tracked session (replaced or
cleared) is discarded: no state mutation, no event, no command, no
error, for every reported session sub-state. -/
theorem stale_session_callback_discarded (u : VoIPUser)
    (sess : SessionModel) (st : SessionState)
    (h : u.session.map SessionModel.id ≠ some sess.id) :
    u.sessionStateListener sess st =
      { user := u, events := [], commands := [], error := none } := by
  unfold VoIPUser.sessionStateListener
  rw [if_pos h]

/-- Witness for the C7 theorem: the tracked session has been replaced by
a different session object, and a callback from the superseded
invitation reporting `Established` changes nothing. -/
theorem stale_session_callback_discarded_witness :
    ({ VoIPUser.initial false none with
        session := some sdhlessSession
        _callState := CallStates.IN_CALL } : VoIPUser).sessionStateListener
      sampleInvitation SessionState.Established =
      { user := { VoIPUser.initial false none with
          session := some sdhlessSession
          _callState := CallStates.IN_CALL }
        events := [], commands := [], error := none } :=
  stale_session_callback_discarded _ _ _ (by decide)

/-- C8 counterexample: a session with no session description handler
reaches `Established` — the machine moves to `IN_CALL` and emits
`callestablished`, `stateChanged`, yet `setupRemoteMedia` neither raises
an error nor attaches any stream: the absent-description-handle case
silently returns instead of failing fatally. -/
theorem setupRemoteMedia_silent_without_sdh :
    ({ VoIPUser.initial false none with
        session := some sdhlessSession
        _callState := CallStates.ANSWER_SENT } : VoIPUser).sessionStateListener
      sdhlessSession SessionState.Established =
      { user := { VoIPUser.initial false none with
          session := some sdhlessSession
          _callState := CallStates.IN_CALL
          _opInProgress := Operation.OP_NONE }
        events := [.callestablished, .stateChanged]
        commands := []
        error := none } := by decide

/-- C8 (amended): remote media attachment raises for an absent session
("Session does not exist.") and for an absent remote stream on a web
session description handler ("Remote media stream undefiend."), but when
the session description handler itself is absent it silently returns
with no error and no state change. -/
theorem setupRemoteMedia_error_cases (u : VoIPUser) (s : SessionModel)
    (sdh : SessionDescriptionHandlerModel) :
    (u.session = none →
      u.setupRemoteMedia =
        { user := u, events := [], commands := [],
          error := some "Session does not exist." }) ∧
    (u.session = some s → s.sessionDescriptionHandler = some sdh →
      sdh.isWebSDH = true → sdh.remoteMediaStream = none →
      u.setupRemoteMedia =
        { user := u, events := [], commands := [],
          error := some "Remote media stream undefiend." }) ∧
    (u.session = some s → s.sessionDescriptionHandler = none →
      u.setupRemoteMedia =
        { user := u, events := [], commands := [], error := none }) := by
  refine ⟨?_, ?_, ?_⟩
  · intro h
    unfold VoIPUser.setupRemoteMedia
    rw [h]
  · intro hs hsdh hweb hrms
    simp [VoIPUser.setupRemoteMedia, hs, hsdh, hweb, hrms]
  · intro hs hsdh
    simp [VoIPUser.setupRemoteMedia, hs, hsdh]

/-- Witness for the amended C8 theorem: a fresh instance (no session), an
instance whose session's web handler has no remote stream, and an
instance whose session has no handler at all. -/
theorem setupRemoteMedia_error_cases_witness :
    (VoIPUser.initial false none).setupRemoteMedia.error =
      some "Session does not exist." ∧
    ({ VoIPUser.initial false none with
        session := some streamlessSession } : VoIPUser).setupRemoteMedia.error =
      some "Remote media stream undefiend." ∧
    ({ VoIPUser.initial false none with
        session := some sdhlessSession } : VoIPUser).setupRemoteMedia.error =
      none :=
  ⟨congrArg StepResult.error
    ((setupRemoteMedia_error_cases (VoIPUser.initial false none)
      streamlessSession { isWebSDH := true, remoteMediaStream := none }).1
      rfl),
   congrArg StepResult.error
    ((setupRemoteMedia_error_cases
      { VoIPUser.initial false none with session := some streamlessSession }
      streamlessSession { isWebSDH := true, remoteMediaStream := none }).2.1
      rfl rfl rfl rfl),
   congrArg StepResult.error
    ((setupRemoteMedia_error_cases
      { VoIPUser.initial false none with session := some sdhlessSession }
      sdhlessSession { isWebSDH := true, remoteMediaStream := none }).2.2
      rfl rfl)⟩

/-- C9 (confirmed): calling `register()` or `unregister()` while no
registerer exists (no connect acknowledgment yet) records the operation
as in progress (`OP_REGISTER` / `OP_UNREGISTER`) but issues no transport
command, raises no error and emits no event; nothing else changes. -/
theorem register_without_registerer (u : VoIPUser)
    (h : u.registerer = false) :
    u.register =
      { user := { u with _opInProgress := Operation.OP_REGISTER },
        events := [], commands := [], error := none } ∧
    u.unregister =
      { user := { u with _opInProgress := Operation.OP_UNREGISTER },
        events := [], commands := [], error := none } := by
  constructor <;>
    simp [VoIPUser.register, VoIPUser.unregister, h]

/-- Witness for the C9 theorem: after construction and `init()` (before
any connect acknowledgment) `register()` only records `OP_REGISTER`. -/
theorem register_without_registerer_witness :
    ((VoIPUser.initial false none).init).user.register =
      { user := { ((VoIPUser.initial false none).init).user with
          _opInProgress := Operation.OP_REGISTER },
        events := [], commands := [], error := none } :=
  (register_without_registerer ((VoIPUser.initial false none).init).user
    rfl).1

/-- C10 (confirmed): a transport disconnect without an error value is
invisible: `onDisconnect` emits no event, issues no command, raises no
error and leaves every field of the instance unchanged (in particular
`isReady`, `callState`, `operationInProgress` and the session). -/
theorem onDisconnect_clean_no_effect (u : VoIPUser) :
    u.onDisconnect none =
      { user := u, events := [], commands := [], error := none } := rfl
